import Mathlib

/-!
Verification development for the SAE-Aerothon-2025 ground-station frontend:
the fleet telemetry poller, the mission/waypoint store, and the map
reconciliation pass of `MissionPlannerPanel.jsx` and the telemetry overlay.

Coordinates are JavaScript numbers in the source; every operation verified
here only copies them (no arithmetic is performed on them), so they are
modelled as exact integers.
-/

namespace Aerothon

/-! ### Mission/Waypoint store (MissionPlannerPanel.jsx)

A waypoint as created by `addWaypointAt`:
`{ id: crypto.randomUUID(), longitude, latitude, altitude, mode: "WAYPOINT" }`.
-/

structure Waypoint where
  id : String
  longitude : Int
  latitude : Int
  altitude : Int
  mode : String
deriving DecidableEq, Repr

instance : Inhabited Waypoint := ⟨⟨"", 0, 0, 0, ""⟩⟩

/-- Source constant `DEFAULT_ALTITUDE_M = 5` (MissionPlannerPanel.jsx line 6). -/
def DEFAULT_ALTITUDE_M : Int := 5

/-- A patch object passed to `updateWaypoint(idx, patch)`. The call sites patch
only `longitude`/`latitude` (drag), `altitude` (field edit) and `mode`
(dropdown); the JS spread `\x7b ...wp, ...patch \x7d` keeps the remaining
fields of `wp`. -/
structure WaypointPatch where
  longitude : Option Int
  latitude : Option Int
  altitude : Option Int
  mode : Option String
deriving DecidableEq, Repr

/-- JS object spread `\x7b ...wp, ...patch \x7d`: fields present in the patch
override the waypoint's fields, the rest are kept. -/
def applyPatch (wp : Waypoint) (p : WaypointPatch) : Waypoint :=
  { id := wp.id
    longitude := p.longitude.getD wp.longitude
    latitude := p.latitude.getD wp.latitude
    altitude := p.altitude.getD wp.altitude
    mode := p.mode.getD wp.mode }

/-- Source `addWaypointAt(lng, lat, alt)`: appends a new waypoint object with
a freshly generated id (`crypto.randomUUID()`, passed here as `fresh`) and
mode `"WAYPOINT"` to the end of the previous list. -/
def addWaypointAt (fresh : String) (lng lat alt : Int) (prev : List Waypoint) :
    List Waypoint :=
  prev ++ [⟨fresh, lng, lat, alt, "WAYPOINT"⟩]

/-- Index-tracking translation of
`prev.map((wp, i) => (i === idx ? \x7b ...wp, ...patch \x7d : wp))`,
the body of source `updateWaypoint(idx, patch)`; `i` is the current index. -/
def updateAux (idx : Nat) (p : WaypointPatch) : Nat → List Waypoint → List Waypoint
  | _, [] => []
  | i, wp :: rest =>
      (if i = idx then applyPatch wp p else wp) :: updateAux idx p (i + 1) rest

/-- Source `updateWaypoint(idx, patch)` (MissionPlannerPanel.jsx lines 75-79). -/
def updateWaypoint (idx : Nat) (p : WaypointPatch) (prev : List Waypoint) :
    List Waypoint :=
  updateAux idx p 0 prev

/-- Index-tracking translation of `prev.filter((_, i) => i !== idx)`, the body
of source `removeWaypoint(idx)`; `i` is the current index. -/
def removeAux (idx : Nat) : Nat → List Waypoint → List Waypoint
  | _, [] => []
  | i, wp :: rest =>
      if i = idx then removeAux idx (i + 1) rest
      else wp :: removeAux idx (i + 1) rest

/-- Source `removeWaypoint(idx)` (MissionPlannerPanel.jsx lines 81-84),
restricted to its effect on the waypoint list. -/
def removeWaypoint (idx : Nat) (prev : List Waypoint) : List Waypoint :=
  removeAux idx 0 prev

/-- Source `clearWaypoints()`: resets the list to empty. -/
def clearWaypoints : List Waypoint := []

/-! ### Map reconciler (MissionPlannerPanel.jsx lines 318-428)

The waypoint-sync effect keeps three kinds of Cesium entities in a mutable
table `entitiesRef`: one polyline (created once), one yellow segment per
consecutive waypoint pair, and one point marker per waypoint. Entities are JS
objects with identity; that identity is modelled by a tag `eid` allocated from
a counter when `viewer.entities.add` runs. A position built by
`Cartesian3.fromDegrees(lon, lat, 0)` is modelled as the pair `(lon, lat)`. -/

structure PointEnt where
  eid : Nat
  lon : Int
  lat : Int
  label : String
deriving DecidableEq, Repr

instance : Inhabited PointEnt := ⟨⟨0, 0, 0, ""⟩⟩

structure SegEnt where
  eid : Nat
  positions : List (Int × Int)
deriving DecidableEq, Repr

instance : Inhabited SegEnt := ⟨⟨0, []⟩⟩

/-- Position of `waypoints[k]` as rendered, i.e. `fromDegrees(longitude,
latitude, 0)`. Callers only use in-range indices; the default is unreachable. -/
def wpPos (wps : List Waypoint) (k : Nat) : Int × Int :=
  ((wps.getD k default).longitude, (wps.getD k default).latitude)

/-- Label abbreviation from the refresh loop:
`wp.mode === "WAYPOINT" ? "WP" : wp.mode.substring(0, 2).toUpperCase()`. -/
def modeAbbrev (mode : String) : String :=
  if mode = "WAYPOINT" then "WP" else (mode.take 2).map Char.toUpper

/-- One step of the `points.forEach((ent, i) => ...)` refresh loop: position
set to waypoint `i`, label set to the index plus abbreviation. The loop never
runs with `i` out of range of `waypoints` (lengths are equalised first). -/
def refreshOne (wps : List Waypoint) (i : Nat) (e : PointEnt) : PointEnt :=
  match wps.get? i with
  | some wp =>
      { eid := e.eid, lon := wp.longitude, lat := wp.latitude,
        label := toString (i + 1) ++ " " ++ modeAbbrev wp.mode }
  | none => e

/-- The whole `points.forEach` refresh loop, tracking the running index. -/
def refreshPointsAux (wps : List Waypoint) : Nat → List PointEnt → List PointEnt
  | _, [] => []
  | i, e :: es => refreshOne wps i e :: refreshPointsAux wps (i + 1) es

/-- The `for (let i = 0; i < needed; i++)` loop of `syncYellowSegments`:
segment `i` gets the positions of waypoints `i` and `i + 1`. -/
def setSegsAux (wps : List Waypoint) : Nat → List SegEnt → List SegEnt
  | _, [] => []
  | i, e :: es =>
      { eid := e.eid, positions := [wpPos wps i, wpPos wps (i + 1)] }
        :: setSegsAux wps (i + 1) es

/-- A segment entity as freshly added (`positions: []` before the update loop). -/
def mkSegEnt (eid : Nat) : SegEnt := ⟨eid, []⟩

/-- Source `syncYellowSegments` (MissionPlannerPanel.jsx lines 344-372):
`needed = Math.max(0, waypoints.length - 1)` (truncated subtraction here);
pop-and-remove from the end while too long, push new entities at the end while
too short, then update every segment's positions. Returns the new segment
list, the next fresh entity tag, and the numbers of create and remove calls.
`grownSegs` is the segment pool after the two while loops (trim at the end,
then push at the end), before the position-update loop. -/
def grownSegs (segs : List SegEnt) (nextEid : Nat) (wps : List Waypoint) :
    List SegEnt :=
  segs.take (wps.length - 1)
    ++ (List.range ((wps.length - 1) - segs.length)).map (fun k => mkSegEnt (nextEid + k))

def syncYellowSegments (segs : List SegEnt) (nextEid : Nat) (wps : List Waypoint) :
    List SegEnt × Nat × Nat × Nat :=
  (setSegsAux wps 0 (grownSegs segs nextEid wps),
    nextEid + ((wps.length - 1) - segs.length),
    (wps.length - 1) - segs.length,
    segs.length - (wps.length - 1))

/-- A point entity as freshly added for waypoint `newIdx`: position from the
waypoint, label the one-based index. -/
def mkPointEnt (eid : Nat) (wps : List Waypoint) (newIdx : Nat) : PointEnt :=
  ⟨eid, (wps.getD newIdx default).longitude, (wps.getD newIdx default).latitude,
    toString (newIdx + 1)⟩

/-- The point-marker sync of the waypoint effect (MissionPlannerPanel.jsx
lines 374-425): pop-and-remove from the end while `points` is longer than
`waypoints`, push new entities at the end while shorter (`newIdx` is the pool
length at push time), then refresh every entity's position and label from its
waypoint. `grownPoints` is the pool after the two while loops, before the
`forEach` refresh. -/
def grownPoints (pts : List PointEnt) (nextEid : Nat) (wps : List Waypoint) :
    List PointEnt :=
  pts.take wps.length
    ++ (List.range (wps.length - pts.length)).map
      (fun k => mkPointEnt (nextEid + k) wps ((pts.take wps.length).length + k))

def syncPoints (pts : List PointEnt) (nextEid : Nat) (wps : List Waypoint) :
    List PointEnt × Nat × Nat × Nat :=
  (refreshPointsAux wps 0 (grownPoints pts nextEid wps),
    nextEid + (wps.length - pts.length),
    wps.length - pts.length,
    pts.length - wps.length)

/-- The entity table held in `entitiesRef` plus the fresh-tag counter. -/
structure EntState where
  hasPolyline : Bool
  points : List PointEnt
  yellowSegments : List SegEnt
  nextEid : Nat
deriving DecidableEq, Repr

/-- One full reconciliation pass of the waypoint effect (MissionPlannerPanel.jsx
lines 318-428): ensure the polyline exists (created once), sync the yellow
segments, sync the point markers. Returns the new table and the total numbers
of entity create and remove calls performed by the pass. -/
def reconcile (st : EntState) (wps : List Waypoint) : EntState × Nat × Nat :=
  let polyCreated := if st.hasPolyline then 0 else 1
  let s := syncYellowSegments st.yellowSegments st.nextEid wps
  let p := syncPoints st.points s.2.1 wps
  (⟨true, p.1, s.1, p.2.1⟩, polyCreated + s.2.2.1 + p.2.2.1, s.2.2.2 + p.2.2.2)

/-- A mutation of the waypoint store: the operations the panel exposes. -/
inductive StoreOp where
  | add (fresh : String) (lng lat alt : Int)
  | update (idx : Nat) (p : WaypointPatch)
  | remove (idx : Nat)
  | clear
deriving DecidableEq, Repr

/-- Apply one store operation to the current waypoint list. -/
def applyOp (l : List Waypoint) : StoreOp → List Waypoint
  | .add fresh lng lat alt => addWaypointAt fresh lng lat alt l
  | .update idx p => updateWaypoint idx p l
  | .remove idx => removeWaypoint idx l
  | .clear => clearWaypoints

/-- The waypoint list after a sequence of store operations from the initial
empty state. -/
def applyOps (ops : List StoreOp) : List Waypoint :=
  ops.foldl applyOp []

/-! ### Interaction controller: add-by-click (MissionPlannerPanel.jsx lines 442-452)

`leftClickFn(click)` returns without effect unless `addMode` is on and the
planner mode is `"MANUAL"`; `pickEllipsoid`/`toDegrees` can fail (modelled by
`pick = none`), otherwise `addWaypointAt(lng, lat, DEFAULT_ALTITUDE_M)` runs.
The fresh id produced by `crypto.randomUUID()` is passed as `fresh`. -/

def leftClickFn (addMode : Bool) (plannerMode : String) (pick : Option (Int × Int))
    (fresh : String) (wps : List Waypoint) : List Waypoint :=
  if addMode = false ∨ plannerMode ≠ "MANUAL" then wps
  else
    match pick with
    | none => wps
    | some (lng, lat) => addWaypointAt fresh lng lat DEFAULT_ALTITUDE_M wps

/-! ### Telemetry poller (MissionPlannerPanel.jsx lines 170-257)

Each `setInterval` tick creates a fresh `AbortController`, stores it in
`fetchControllerRef.current` (without aborting the one already there) and
issues a fetch carrying its signal; the in-flight request is identified by the
generation number of its controller. When a fetch resolves, its handler
returns early if the component has unmounted or the connected flag was
cleared, and otherwise stores the parsed body with `setTelemetry(data)` unless
the response was not ok or carried a fleet snapshot. An abort makes the
awaited fetch throw, which the catch block swallows. `stopPolling` (run on
disconnect and on unmount) aborts the stored controller. -/

/-- A telemetry HTTP response: `ok` status, whether the body has a `fleet`
field, and the payload (an opaque tag standing for the parsed JSON body). -/
structure TelemetryResp where
  ok : Bool
  isFleet : Bool
  payload : Nat
deriving DecidableEq, Repr

structure PollerState where
  mounted : Bool
  connected : Bool
  displayed : Option Nat
  current : Option Nat
  nextGen : Nat
  aborted : List Nat
deriving DecidableEq, Repr

/-- One interval tick: skipped when not connected or unmounted; otherwise a
new controller (generation `nextGen`) replaces the stored one — the previous
controller is NOT aborted — and its request goes out. -/
def pollTick (s : PollerState) : PollerState :=
  if s.connected = false ∨ s.mounted = false then s
  else { s with current := some s.nextGen, nextGen := s.nextGen + 1 }

/-- Resolution of the request issued with generation `g`: dropped if that
controller was aborted (the fetch throws, the catch swallows it), dropped if
unmounted or disconnected, applied via `setTelemetry` if the response is ok
and not a fleet snapshot — with no comparison of `g` against any newer
generation. -/
def resolveFetch (s : PollerState) (g : Nat) (r : TelemetryResp) : PollerState :=
  if g ∈ s.aborted then s
  else if s.mounted = false ∨ s.connected = false then s
  else if r.ok = true ∧ r.isFleet = false then { s with displayed := some r.payload }
  else s

/-- Source `stopPolling`: clears the timer and aborts the stored controller. -/
def stopPolling (s : PollerState) : PollerState :=
  match s.current with
  | some g => { s with aborted := g :: s.aborted, current := none }
  | none => s

/-! ### Fleet aggregator (part_004, TelemetryOverlay `fetchFleetStatus`)

`/fleet/status` returns `{ count, fleet }` where `fleet` is a JSON object
keyed by sysId. After `response.json()`, JavaScript enumerates the canonical
integer-string keys of such an object in ascending numeric order, so the fleet
map is modelled as an association list sorted by key; `Object.keys(fleet)[0]`
followed by `parseInt` is the head key. The sortedness is carried as a
hypothesis (`List.Pairwise` on keys) where a theorem needs it. -/

structure DroneSummary where
  latitude_deg : Int
  longitude_deg : Int
  flight_mode : String
deriving DecidableEq, Repr

instance : Inhabited DroneSummary := ⟨⟨0, 0, ""⟩⟩

structure FleetData where
  count : Nat
  fleet : Option (List (Nat × DroneSummary))
deriving DecidableEq, Repr

/-- An event dispatched on `window` (the notification bus). -/
inductive UiEvent where
  | droneSelected (sysId : Option Nat)
deriving DecidableEq, Repr

structure OverlayState where
  fleetStatus : Option FleetData
  selectedDroneId : Option Nat
deriving DecidableEq, Repr

/-- JS falsiness of `selectedDroneId` (`!selectedDroneId`): null or 0. The
value is only ever null or a parsed fleet key, and sysIds are positive. -/
def jsFalsyId : Option Nat → Bool
  | none => true
  | some n => n == 0

/-- Body of `fetchFleetStatus` on a successful response (part_004 lines
514-542): store the snapshot; if no drone is selected and the fleet object is
present and non-empty, select `parseInt(Object.keys(data.fleet)[0])` and
dispatch a `drone-selected` event carrying it. Returns the new state and the
dispatched events. -/
def receiveFleetStatus (s : OverlayState) (data : FleetData) :
    OverlayState × List UiEvent :=
  let s1 : OverlayState :=
    { fleetStatus := some data, selectedDroneId := s.selectedDroneId }
  match data.fleet with
  | some fl =>
      if jsFalsyId s.selectedDroneId = true ∧ 0 < fl.length then
        let firstSysId := (fl.headD (0, default)).1
        ({ s1 with selectedDroneId := some firstSysId },
          [UiEvent.droneSelected (some firstSysId)])
      else (s1, [])
  | none => (s1, [])

/-! ### Manual mission submission (MissionPlannerPanel.jsx lines 535-576) -/

/-- The `/mission/manual` response: `ok` status, the `detail` field of the
error body if any (`resp.json().catch` yields an empty object, i.e. `none`),
and `summary.auto_started` of the success body. -/
structure MissionResp where
  ok : Bool
  detail : Option String
  autoStarted : Bool
deriving DecidableEq, Repr

/-- Source `handleStartMission`, restricted to its effect on the mission
status text and the waypoint list. With no waypoints it alerts and returns.
On a non-ok response it throws `Error(err.detail || "Failed to start manual
mission")`, caught by the handler which stores the message as the status. On
success the status reports the upload (and auto-start). The waypoint list is
never written. -/
def handleStartMission (wps : List Waypoint) (status0 : String) (resp : MissionResp) :
    String × List Waypoint :=
  if wps.length = 0 then (status0, wps)
  else if resp.ok = true then
    ((if resp.autoStarted = true then "Manual mission uploaded and started."
      else "Manual mission uploaded."), wps)
  else (resp.detail.getD "Failed to start manual mission", wps)

/-! ### Manual/KML mutual exclusion (part_004 lines 391-440, panel lines 578-598) -/

/-- Source `isKmlBlocked = (manualWaypointsCount || 0) > 0` (part_004 line 391). -/
def isKmlBlocked (manualWaypointsCount : Nat) : Bool :=
  decide (0 < manualWaypointsCount)

/-- Guard of `onStartKml` (part_004 lines 395-399): `handleStartMission` (the
KML mission) runs iff not blocked and a KML file is uploaded. -/
def onStartKmlFires (manualWaypointsCount : Nat) (uploadedKmlFile : Bool) : Bool :=
  !(isKmlBlocked manualWaypointsCount) && uploadedKmlFile

/-- Guard of `onGeneratePath` (part_004 lines 425-429). -/
def onGeneratePathFires (manualWaypointsCount : Nat)
    (uploadedKmlFile isGeneratingPath : Bool) : Bool :=
  !(isKmlBlocked manualWaypointsCount) && uploadedKmlFile && !isGeneratingPath

/-- The slice of the panel's state that gates manual editing. -/
structure PanelState where
  addMode : Bool
  plannerMode : String
  kmlUploaded : Bool
  waypoints : List Waypoint
deriving DecidableEq, Repr

/-- A map left-click as it acts on the panel state: `leftClickFn` reads only
`addMode` and `plannerMode` (never `kmlUploaded`). -/
def panelLeftClick (s : PanelState) (pick : Option (Int × Int)) (fresh : String) :
    PanelState :=
  { s with waypoints := leftClickFn s.addMode s.plannerMode pick fresh s.waypoints }

/-- Branch taken by `handleUnifiedStart` (panel lines 579-585): the manual
submission runs iff the planner mode is not `"KML"`. -/
def unifiedStartSubmitsManual (plannerMode : String) : Bool :=
  plannerMode != "KML"

/-- Source `canStart` (panel lines 595-597). -/
def canStart (plannerMode : String) (waypointsCount : Nat) (kmlUploaded : Bool) :
    Bool :=
  (plannerMode == "MANUAL" && decide (0 < waypointsCount))
    || (plannerMode == "KML" && kmlUploaded)

/-! ## Theorems -/

/-! ### Store lemmas -/

theorem updateAux_length (idx : Nat) (p : WaypointPatch) :
    ∀ (i : Nat) (l : List Waypoint), (updateAux idx p i l).length = l.length := by
  intro i l
  induction l generalizing i with
  | nil => rfl
  | cons wp rest ih => simp [updateAux, ih]

theorem updateAux_get? (idx : Nat) (p : WaypointPatch) :
    ∀ (i j : Nat) (l : List Waypoint),
      (updateAux idx p i l).get? j
        = (l.get? j).map (fun wp => if i + j = idx then applyPatch wp p else wp) := by
  intro i j l
  induction l generalizing i j with
  | nil => simp [updateAux]
  | cons wp rest ih =>
    cases j with
    | zero => simp [updateAux]
    | succ j =>
      simp only [updateAux, List.get?_cons_succ, ih (i + 1) j]
      have harith : i + 1 + j = i + (j + 1) := by omega
      rw [harith]

theorem updateWaypoint_length (idx : Nat) (p : WaypointPatch) (l : List Waypoint) :
    (updateWaypoint idx p l).length = l.length :=
  updateAux_length idx p 0 l

theorem updateWaypoint_get? (idx : Nat) (p : WaypointPatch) (l : List Waypoint)
    (j : Nat) :
    (updateWaypoint idx p l).get? j
      = (l.get? j).map (fun wp => if j = idx then applyPatch wp p else wp) := by
  have h := updateAux_get? idx p 0 j l
  simpa using h

theorem updateWaypoint_out_of_range (idx : Nat) (p : WaypointPatch)
    (l : List Waypoint) (h : l.length ≤ idx) : updateWaypoint idx p l = l := by
  apply List.ext_get?
  intro j
  rw [updateWaypoint_get?]
  rcases Nat.lt_or_ge j l.length with hj | hj
  · have hne : j ≠ idx := by omega
    rw [List.get?_eq_get hj]
    simp [hne]
  · rw [List.get?_eq_none.mpr hj]
    rfl

theorem removeAux_eq_eraseIdx (idx : Nat) :
    ∀ (i : Nat) (l : List Waypoint),
      removeAux idx i l = if i ≤ idx then l.eraseIdx (idx - i) else l := by
  intro i l
  induction l generalizing i with
  | nil => simp [removeAux]
  | cons wp rest ih =>
    by_cases hi : i = idx
    · subst hi
      simp only [removeAux, if_pos rfl, ih (i + 1)]
      have h2 : ¬ (i + 1 ≤ i) := by omega
      simp [h2, Nat.sub_self, List.eraseIdx]
    · simp only [removeAux, if_neg hi, ih (i + 1)]
      rcases Nat.lt_or_ge i idx with hlt | hge
      · have h1 : i + 1 ≤ idx := hlt
        have h0 : i ≤ idx := Nat.le_of_lt hlt
        have hsub : idx - i = (idx - (i + 1)) + 1 := by omega
        simp [h1, h0, hsub, List.eraseIdx]
      · have h1 : ¬ (i + 1 ≤ idx) := by omega
        have h0 : ¬ (i ≤ idx) := by omega
        simp [h1, h0]

theorem removeWaypoint_eq_eraseIdx (idx : Nat) (l : List Waypoint) :
    removeWaypoint idx l = l.eraseIdx idx := by
  have h := removeAux_eq_eraseIdx idx 0 l
  simpa using h

theorem removeWaypoint_out_of_range (idx : Nat) (l : List Waypoint)
    (h : l.length ≤ idx) : removeWaypoint idx l = l := by
  rw [removeWaypoint_eq_eraseIdx]
  induction l generalizing idx with
  | nil => cases idx <;> rfl
  | cons wp rest ih =>
    cases idx with
    | zero => simp at h
    | succ idx =>
      simp only [List.eraseIdx]
      rw [ih idx (by simpa using h)]

/-! ### Claim C2 -/

/-- Claim C2, counterexample. The claim says `updateWaypoint`/`removeWaypoint`
resolve their target by the waypoint's stable id, never positionally. In the
source both take a list index: with the two-waypoint list holding ids
`"a"`, `"b"`, the call that patched the waypoint with id `"b"` (position 1)
becomes a no-op on `[b]` after the earlier waypoint is removed, and position 0
then patches id `"b"` — resolution is positional, and removing an earlier
waypoint changes which waypoint a fixed target denotes. -/
theorem c2_update_remove_by_id_counterexample :
    (updateWaypoint 1 ⟨none, none, some 50, none⟩
        [⟨"a", 0, 0, 5, "WAYPOINT"⟩, ⟨"b", 1, 1, 5, "WAYPOINT"⟩]).map Waypoint.altitude
      = [5, 50]
    ∧ removeWaypoint 0 [⟨"a", 0, 0, 5, "WAYPOINT"⟩, ⟨"b", 1, 1, 5, "WAYPOINT"⟩]
      = [⟨"b", 1, 1, 5, "WAYPOINT"⟩]
    ∧ updateWaypoint 1 ⟨none, none, some 50, none⟩ [⟨"b", 1, 1, 5, "WAYPOINT"⟩]
      = [⟨"b", 1, 1, 5, "WAYPOINT"⟩]
    ∧ (updateWaypoint 0 ⟨none, none, some 50, none⟩
        [⟨"b", 1, 1, 5, "WAYPOINT"⟩]).map Waypoint.id = ["b"]
    ∧ (updateWaypoint 0 ⟨none, none, some 50, none⟩
        [⟨"b", 1, 1, 5, "WAYPOINT"⟩]).map Waypoint.altitude = [50] :=
  ⟨rfl, rfl, rfl, rfl, rfl⟩

/-- Claim C2, amended: the store's update and remove operations resolve their
target positionally by list index. `updateWaypoint idx patch` patches exactly
the waypoint currently at position `idx` (every other position is unchanged),
`removeWaypoint idx` erases exactly the element at position `idx`, and an
out-of-range index makes either operation a no-op rather than an error. -/
theorem c2_update_remove_positional (idx : Nat) (p : WaypointPatch)
    (l : List Waypoint) :
    (updateWaypoint idx p l).length = l.length
    ∧ (∀ j, j ≠ idx → (updateWaypoint idx p l).get? j = l.get? j)
    ∧ (∀ wp, l.get? idx = some wp →
        (updateWaypoint idx p l).get? idx = some (applyPatch wp p))
    ∧ (l.length ≤ idx → updateWaypoint idx p l = l)
    ∧ removeWaypoint idx l = l.eraseIdx idx
    ∧ (l.length ≤ idx → removeWaypoint idx l = l) := by
  refine ⟨updateWaypoint_length idx p l, ?_, ?_, updateWaypoint_out_of_range idx p l,
    removeWaypoint_eq_eraseIdx idx l, removeWaypoint_out_of_range idx l⟩
  · intro j hj
    rw [updateWaypoint_get?]
    cases l.get? j with
    | none => rfl
    | some wp => simp [hj]
  · intro wp hwp
    rw [updateWaypoint_get?, hwp]
    simp

/-- Witness for `c2_update_remove_positional` at a concrete input. -/
theorem c2_update_remove_positional_witness :
    (updateWaypoint 1 ⟨none, none, some 50, none⟩
        [⟨"a", 0, 0, 5, "WAYPOINT"⟩]).get? 0
      = ([⟨"a", 0, 0, 5, "WAYPOINT"⟩] : List Waypoint).get? 0
    ∧ (updateWaypoint 0 ⟨none, none, some 50, none⟩
        [⟨"a", 0, 0, 5, "WAYPOINT"⟩]).get? 0
      = some (applyPatch ⟨"a", 0, 0, 5, "WAYPOINT"⟩ ⟨none, none, some 50, none⟩)
    ∧ updateWaypoint 1 ⟨none, none, some 50, none⟩ [⟨"a", 0, 0, 5, "WAYPOINT"⟩]
      = [⟨"a", 0, 0, 5, "WAYPOINT"⟩]
    ∧ removeWaypoint 3 [⟨"a", 0, 0, 5, "WAYPOINT"⟩] = [⟨"a", 0, 0, 5, "WAYPOINT"⟩] :=
  ⟨(c2_update_remove_positional 1 ⟨none, none, some 50, none⟩
      [⟨"a", 0, 0, 5, "WAYPOINT"⟩]).2.1 0 (by decide),
   (c2_update_remove_positional 0 ⟨none, none, some 50, none⟩
      [⟨"a", 0, 0, 5, "WAYPOINT"⟩]).2.2.1 ⟨"a", 0, 0, 5, "WAYPOINT"⟩ rfl,
   (c2_update_remove_positional 1 ⟨none, none, some 50, none⟩
      [⟨"a", 0, 0, 5, "WAYPOINT"⟩]).2.2.2.1 (by decide),
   (c2_update_remove_positional 3 ⟨none, none, some 50, none⟩
      [⟨"a", 0, 0, 5, "WAYPOINT"⟩]).2.2.2.2.2 (by decide)⟩

/-! ### Claim C10 -/

/-- Claim C10: a map click in add mode (planner mode `"MANUAL"`, successful
ground pick) appends exactly one waypoint at the end of the list, carrying the
freshly generated id, the clicked longitude/latitude, altitude exactly 5
(`DEFAULT_ALTITUDE_M`) and mode `"WAYPOINT"`; the previously existing
waypoints and their order are unchanged, and the fresh id occurs once. -/
theorem c10_click_appends_default_waypoint (lng lat : Int) (fresh : String)
    (wps : List Waypoint) (hfresh : fresh ∉ wps.map Waypoint.id) :
    leftClickFn true "MANUAL" (some (lng, lat)) fresh wps
      = wps ++ [⟨fresh, lng, lat, 5, "WAYPOINT"⟩]
    ∧ (leftClickFn true "MANUAL" (some (lng, lat)) fresh wps).take wps.length = wps
    ∧ ((leftClickFn true "MANUAL" (some (lng, lat)) fresh wps).map
        Waypoint.id).count fresh = 1 := by
  have heq : leftClickFn true "MANUAL" (some (lng, lat)) fresh wps
      = wps ++ [⟨fresh, lng, lat, 5, "WAYPOINT"⟩] := by
    simp [leftClickFn, addWaypointAt, DEFAULT_ALTITUDE_M]
  refine ⟨heq, ?_, ?_⟩
  · rw [heq, List.take_left]
  · rw [heq, List.map_append, List.count_append]
    rw [List.count_eq_zero_of_not_mem hfresh]
    simp

/-- Witness for `c10_click_appends_default_waypoint` at a concrete input. -/
theorem c10_click_appends_default_waypoint_witness :
    leftClickFn true "MANUAL" (some (10, 20)) "u1" [⟨"w0", 1, 2, 5, "WAYPOINT"⟩]
      = [⟨"w0", 1, 2, 5, "WAYPOINT"⟩, ⟨"u1", 10, 20, 5, "WAYPOINT"⟩] :=
  (c10_click_appends_default_waypoint 10 20 "u1" [⟨"w0", 1, 2, 5, "WAYPOINT"⟩]
    (by decide)).1

/-! ### Reconciler lemmas -/

theorem refreshPointsAux_length (wps : List Waypoint) :
    ∀ (i : Nat) (pts : List PointEnt),
      (refreshPointsAux wps i pts).length = pts.length := by
  intro i pts
  induction pts generalizing i with
  | nil => rfl
  | cons e es ih => simp [refreshPointsAux, ih]

theorem refreshPointsAux_get? (wps : List Waypoint) :
    ∀ (i j : Nat) (pts : List PointEnt),
      (refreshPointsAux wps i pts).get? j
        = (pts.get? j).map (refreshOne wps (i + j)) := by
  intro i j pts
  induction pts generalizing i j with
  | nil => simp [refreshPointsAux]
  | cons e es ih =>
    cases j with
    | zero => simp [refreshPointsAux]
    | succ j =>
      simp only [refreshPointsAux, List.get?_cons_succ, ih (i + 1) j]
      have harith : i + 1 + j = i + (j + 1) := by omega
      rw [harith]

theorem refreshOne_idem (wps : List Waypoint) (i : Nat) (e : PointEnt) :
    refreshOne wps i (refreshOne wps i e) = refreshOne wps i e := by
  unfold refreshOne
  cases wps.get? i with
  | none => rfl
  | some wp => rfl

theorem refreshPointsAux_idem (wps : List Waypoint) :
    ∀ (i : Nat) (pts : List PointEnt),
      refreshPointsAux wps i (refreshPointsAux wps i pts)
        = refreshPointsAux wps i pts := by
  intro i pts
  induction pts generalizing i with
  | nil => rfl
  | cons e es ih => simp [refreshPointsAux, refreshOne_idem, ih]

theorem setSegsAux_length (wps : List Waypoint) :
    ∀ (i : Nat) (ss : List SegEnt), (setSegsAux wps i ss).length = ss.length := by
  intro i ss
  induction ss generalizing i with
  | nil => rfl
  | cons e es ih => simp [setSegsAux, ih]

theorem setSegsAux_get? (wps : List Waypoint) :
    ∀ (i j : Nat) (ss : List SegEnt),
      (setSegsAux wps i ss).get? j
        = (ss.get? j).map
            (fun e => ⟨e.eid, [wpPos wps (i + j), wpPos wps (i + j + 1)]⟩) := by
  intro i j ss
  induction ss generalizing i j with
  | nil => simp [setSegsAux]
  | cons e es ih =>
    cases j with
    | zero => simp [setSegsAux]
    | succ j =>
      simp only [setSegsAux, List.get?_cons_succ, ih (i + 1) j]
      have harith : i + 1 + j = i + (j + 1) := by omega
      rw [harith]

theorem setSegsAux_idem (wps : List Waypoint) :
    ∀ (i : Nat) (ss : List SegEnt),
      setSegsAux wps i (setSegsAux wps i ss) = setSegsAux wps i ss := by
  intro i ss
  induction ss generalizing i with
  | nil => rfl
  | cons e es ih => simp [setSegsAux, ih]

theorem setSegsAux_map_eid (wps : List Waypoint) :
    ∀ (i : Nat) (ss : List SegEnt),
      (setSegsAux wps i ss).map SegEnt.eid = ss.map SegEnt.eid := by
  intro i ss
  induction ss generalizing i with
  | nil => rfl
  | cons e es ih => simp [setSegsAux, ih]

theorem grownPoints_length (pts : List PointEnt) (nextEid : Nat)
    (wps : List Waypoint) : (grownPoints pts nextEid wps).length = wps.length := by
  simp [grownPoints]
  omega

theorem grownSegs_length (segs : List SegEnt) (nextEid : Nat)
    (wps : List Waypoint) : (grownSegs segs nextEid wps).length = wps.length - 1 := by
  simp [grownSegs]
  omega

theorem syncPoints_fst_length (pts : List PointEnt) (nextEid : Nat)
    (wps : List Waypoint) : (syncPoints pts nextEid wps).1.length = wps.length := by
  show (refreshPointsAux wps 0 (grownPoints pts nextEid wps)).length = wps.length
  rw [refreshPointsAux_length, grownPoints_length]

theorem syncPoints_get?_pos (pts : List PointEnt) (nextEid : Nat)
    (wps : List Waypoint) (i : Nat) :
    ((syncPoints pts nextEid wps).1.get? i).map PointEnt.lon
      = (wps.get? i).map Waypoint.longitude
    ∧ ((syncPoints pts nextEid wps).1.get? i).map PointEnt.lat
      = (wps.get? i).map Waypoint.latitude := by
  have hres : (syncPoints pts nextEid wps).1.get? i
      = ((grownPoints pts nextEid wps).get? i).map (refreshOne wps i) := by
    show (refreshPointsAux wps 0 (grownPoints pts nextEid wps)).get? i = _
    rw [refreshPointsAux_get?]
    simp
  rcases Nat.lt_or_ge i wps.length with h | h
  · have hg : i < (grownPoints pts nextEid wps).length := by
      rw [grownPoints_length]
      exact h
    rw [hres, List.get?_eq_get hg, List.get?_eq_get h]
    constructor <;> simp [refreshOne, List.getElem?_eq_getElem h]
  · have hg : (grownPoints pts nextEid wps).get? i = none := by
      apply List.get?_eq_none.mpr
      rw [grownPoints_length]
      exact h
    have hw : wps.get? i = none := List.get?_eq_none.mpr h
    rw [hres, hg, hw]
    exact ⟨rfl, rfl⟩

theorem syncYellowSegments_fst_length (segs : List SegEnt) (nextEid : Nat)
    (wps : List Waypoint) :
    (syncYellowSegments segs nextEid wps).1.length = wps.length - 1 := by
  show (setSegsAux wps 0 (grownSegs segs nextEid wps)).length = wps.length - 1
  rw [setSegsAux_length, grownSegs_length]

theorem syncYellowSegments_get?_positions (segs : List SegEnt) (nextEid : Nat)
    (wps : List Waypoint) (i : Nat) :
    ((syncYellowSegments segs nextEid wps).1.get? i).map SegEnt.positions
      = if i < wps.length - 1 then some [wpPos wps i, wpPos wps (i + 1)]
        else none := by
  have hres : (syncYellowSegments segs nextEid wps).1.get? i
      = ((grownSegs segs nextEid wps).get? i).map
          (fun e => ⟨e.eid, [wpPos wps i, wpPos wps (i + 1)]⟩) := by
    show (setSegsAux wps 0 (grownSegs segs nextEid wps)).get? i = _
    rw [setSegsAux_get?]
    simp
  rcases Nat.lt_or_ge i (wps.length - 1) with h | h
  · have hg : i < (grownSegs segs nextEid wps).length := by
      rw [grownSegs_length]
      exact h
    rw [hres, List.get?_eq_get hg]
    simp [h]
  · have hg : (grownSegs segs nextEid wps).get? i = none := by
      apply List.get?_eq_none.mpr
      rw [grownSegs_length]
      exact h
    rw [hres, hg]
    simp [Nat.not_lt.mpr h]

theorem syncYellowSegments_fst_map_eid (segs : List SegEnt) (nextEid : Nat)
    (wps : List Waypoint) :
    (syncYellowSegments segs nextEid wps).1.map SegEnt.eid
      = (segs.map SegEnt.eid).take (wps.length - 1)
        ++ (List.range ((wps.length - 1) - segs.length)).map
            (fun k => nextEid + k) := by
  show (setSegsAux wps 0 (grownSegs segs nextEid wps)).map SegEnt.eid = _
  rw [setSegsAux_map_eid]
  simp only [grownSegs, List.map_append, List.map_take, List.map_map]
  rfl

theorem syncYellowSegments_stable (wps : List Waypoint) (ss : List SegEnt) (e : Nat)
    (hlen : ss.length = wps.length - 1) (hset : setSegsAux wps 0 ss = ss) :
    syncYellowSegments ss e wps = (ss, e, 0, 0) := by
  have hc : (wps.length - 1) - ss.length = 0 := by omega
  have hr : ss.length - (wps.length - 1) = 0 := by omega
  have hg : grownSegs ss e wps = ss := by
    unfold grownSegs
    rw [hc]
    simp only [List.range_zero, List.map_nil, List.append_nil]
    rw [← hlen, List.take_length]
  unfold syncYellowSegments
  rw [hg, hset, hc, hr]
  simp

theorem syncPoints_stable (wps : List Waypoint) (pp : List PointEnt) (e : Nat)
    (hlen : pp.length = wps.length) (href : refreshPointsAux wps 0 pp = pp) :
    syncPoints pp e wps = (pp, e, 0, 0) := by
  have hc : wps.length - pp.length = 0 := by omega
  have hr : pp.length - wps.length = 0 := by omega
  have hg : grownPoints pp e wps = pp := by
    unfold grownPoints
    rw [hc]
    simp only [List.range_zero, List.map_nil, List.append_nil]
    rw [← hlen, List.take_length]
  unfold syncPoints
  rw [hg, href, hc, hr]
  simp

theorem syncYellowSegments_fst_stable (segs : List SegEnt) (e e2 : Nat)
    (wps : List Waypoint) :
    syncYellowSegments (syncYellowSegments segs e wps).1 e2 wps
      = ((syncYellowSegments segs e wps).1, e2, 0, 0) := by
  apply syncYellowSegments_stable
  · exact syncYellowSegments_fst_length segs e wps
  · exact setSegsAux_idem wps 0 (grownSegs segs e wps)

theorem syncPoints_fst_stable (pts : List PointEnt) (e e2 : Nat)
    (wps : List Waypoint) :
    syncPoints (syncPoints pts e wps).1 e2 wps
      = ((syncPoints pts e wps).1, e2, 0, 0) := by
  apply syncPoints_stable
  · exact syncPoints_fst_length pts e wps
  · exact refreshPointsAux_idem wps 0 (grownPoints pts e wps)

theorem reconcile_of_stable (st : EntState) (wps : List Waypoint)
    (hpoly : st.hasPolyline = true)
    (hs : syncYellowSegments st.yellowSegments st.nextEid wps
      = (st.yellowSegments, st.nextEid, 0, 0))
    (hp : syncPoints st.points st.nextEid wps = (st.points, st.nextEid, 0, 0)) :
    reconcile st wps = (st, 0, 0) := by
  obtain ⟨b, pts, segs, ne⟩ := st
  dsimp only at hpoly hs hp
  subst hpoly
  simp [reconcile, hs, hp]

/-! ### Claims C3, C6, C7 -/

/-- Claim C3: for any sequence of add/update/remove/clear store operations and
any prior entity table, after the reconciliation pass the number of rendered
point-marker entities equals the number of waypoints, and the entity at each
index has exactly that waypoint's longitude and latitude (both sides `none`
beyond the common length). -/
theorem c3_waypoint_entity_parity (ops : List StoreOp) (st : EntState) :
    (reconcile st (applyOps ops)).1.points.length = (applyOps ops).length
    ∧ ∀ i : Nat,
        ((reconcile st (applyOps ops)).1.points.get? i).map PointEnt.lon
          = ((applyOps ops).get? i).map Waypoint.longitude
        ∧ ((reconcile st (applyOps ops)).1.points.get? i).map PointEnt.lat
          = ((applyOps ops).get? i).map Waypoint.latitude := by
  constructor
  · exact syncPoints_fst_length st.points _ (applyOps ops)
  · intro i
    exact syncPoints_get?_pos st.points _ (applyOps ops) i

/-- Claim C6: after a pass of `syncYellowSegments` over `n` waypoints there
are exactly `max(0, n - 1)` segment entities (truncated subtraction), segment
`i` connects the rendered positions of waypoints `i` and `i + 1`, and the pool
is adjusted only at its end: the surviving entities are the original prefix
(same tags, same order) and every new entity is appended after them. -/
theorem c6_segment_pool_sync (wps : List Waypoint) (segs : List SegEnt)
    (nextEid : Nat) :
    (syncYellowSegments segs nextEid wps).1.length = wps.length - 1
    ∧ (∀ i : Nat,
        ((syncYellowSegments segs nextEid wps).1.get? i).map SegEnt.positions
          = if i < wps.length - 1 then some [wpPos wps i, wpPos wps (i + 1)]
            else none)
    ∧ (syncYellowSegments segs nextEid wps).1.map SegEnt.eid
        = (segs.map SegEnt.eid).take (wps.length - 1)
          ++ (List.range ((wps.length - 1) - segs.length)).map
              (fun k => nextEid + k) :=
  ⟨syncYellowSegments_fst_length segs nextEid wps,
   fun i => syncYellowSegments_get?_positions segs nextEid wps i,
   syncYellowSegments_fst_map_eid segs nextEid wps⟩

/-- Claim C7: reconciliation is idempotent — running the pass a second time
with the same waypoint list performs zero entity create calls and zero remove
calls and returns the entity table unchanged. -/
theorem c7_reconcile_idempotent (st : EntState) (wps : List Waypoint) :
    reconcile (reconcile st wps).1 wps = ((reconcile st wps).1, 0, 0) := by
  apply reconcile_of_stable
  · rfl
  · exact syncYellowSegments_fst_stable st.yellowSegments st.nextEid _ wps
  · exact syncPoints_fst_stable st.points _ _ wps

/-! ### Claim C1 -/

/-- Claim C1, counterexample. The claim says the poller cancels or discards by
generation the previous tick's in-flight request, so the displayed snapshot
always comes from the latest issued tick. In the source, a tick only replaces
the stored controller: starting connected and mounted, tick N (generation 0)
and tick N+1 (generation 1) both issue with nothing aborted; generation 1
resolves first (payload 101) and is displayed, then generation 0 resolves late
(payload 100) and overwrites it — the final displayed snapshot is tick N's. -/
theorem c1_stale_response_counterexample :
    (pollTick (pollTick ⟨true, true, none, none, 0, []⟩)).aborted = []
    ∧ (resolveFetch (pollTick (pollTick ⟨true, true, none, none, 0, []⟩)) 1
        ⟨true, false, 101⟩).displayed = some 101
    ∧ (resolveFetch (resolveFetch (pollTick (pollTick ⟨true, true, none, none, 0, []⟩)) 1
        ⟨true, false, 101⟩) 0 ⟨true, false, 100⟩).displayed = some 100 := by
  decide

/-- Claim C1, amended: a tick never aborts the previously issued request (the
new controller merely replaces the stored one), and a resolving response is
applied without any generation comparison — it is dropped only when its own
controller was aborted, the component unmounted, the connected flag cleared,
the response not ok, or the body a fleet snapshot. Hence the displayed
snapshot is that of the most recently resolved, not most recently issued,
request; in-flight requests are aborted only by `stopPolling` (disconnect or
unmount), which aborts the stored controller. -/
theorem c1_resolution_ignores_generation (s : PollerState) (g : Nat)
    (r : TelemetryResp) :
    (pollTick s).aborted = s.aborted
    ∧ (resolveFetch s g r).displayed
        = (if g ∈ s.aborted ∨ s.mounted = false ∨ s.connected = false
              ∨ ¬ (r.ok = true ∧ r.isFleet = false)
           then s.displayed else some r.payload)
    ∧ (stopPolling s).current = none
    ∧ (stopPolling s).aborted
        = (match s.current with
           | some g0 => g0 :: s.aborted
           | none => s.aborted) := by
  refine ⟨?_, ?_, ?_, ?_⟩
  · unfold pollTick
    split <;> rfl
  · unfold resolveFetch
    by_cases h1 : g ∈ s.aborted
    · simp [h1]
    · by_cases hm : s.mounted = false
      · simp [h1, hm]
      · by_cases hc : s.connected = false
        · simp [h1, hm, hc]
        · by_cases h3 : r.ok = true ∧ r.isFleet = false
          · simp [h1, hm, hc, h3]
          · simp [h1, hm, hc, h3]
  · obtain ⟨m, c, disp, cur, ng, ab⟩ := s
    unfold stopPolling
    cases cur <;> rfl
  · obtain ⟨m, c, disp, cur, ng, ab⟩ := s
    unfold stopPolling
    cases cur <;> rfl

/-! ### Claim C4 -/

/-- Claim C4, counterexample. The claim says that when the selected identity
is absent from a newly received snapshot, the selection becomes null. In the
source nothing clears the selection on snapshot receipt: with drone 2
selected, receiving a snapshot whose only key is 1 leaves drone 2 selected,
even though 2 is not a key of the now-current snapshot. -/
theorem c4_selection_validity_counterexample :
    (receiveFleetStatus ⟨none, some 2⟩
        ⟨1, some [(1, ⟨7, 8, "GUIDED"⟩)]⟩).1.selectedDroneId = some 2
    ∧ (receiveFleetStatus ⟨none, some 2⟩
        ⟨1, some [(1, ⟨7, 8, "GUIDED"⟩)]⟩).1.fleetStatus
      = some ⟨1, some [(1, ⟨7, 8, "GUIDED"⟩)]⟩
    ∧ (2 : Nat) ∉ ([(1, (⟨7, 8, "GUIDED"⟩ : DroneSummary))].map Prod.fst) := by
  decide

/-- Claim C4, amended: snapshot receipt never clears a non-null selection —
whatever snapshot arrives, the previously selected identity stays selected
(even when it is absent from the new snapshot's keys), while the stored
snapshot is replaced; the selection is reset to null only by explicit
reselection, reconnect, or leaving multi-drone mode. -/
theorem c4_selection_persists (s : OverlayState) (data : FleetData) (d : Nat)
    (hd : s.selectedDroneId = some d) (hpos : 0 < d) :
    (receiveFleetStatus s data).1.selectedDroneId = some d
    ∧ (receiveFleetStatus s data).1.fleetStatus = some data := by
  have hfalsy : jsFalsyId (some d) = false := by
    simp [jsFalsyId]
    omega
  cases hfl : data.fleet with
  | none => exact ⟨by simp [receiveFleetStatus, hfl, hd], by simp [receiveFleetStatus, hfl]⟩
  | some fl =>
    constructor
    · simp [receiveFleetStatus, hfl, hd, hfalsy]
    · simp [receiveFleetStatus, hfl, hd, hfalsy]

/-- Witness for `c4_selection_persists` at a concrete input. -/
theorem c4_selection_persists_witness :
    (receiveFleetStatus ⟨none, some 3⟩
        ⟨1, some [(1, ⟨7, 8, "GUIDED"⟩)]⟩).1.selectedDroneId = some 3 :=
  (c4_selection_persists ⟨none, some 3⟩ ⟨1, some [(1, ⟨7, 8, "GUIDED"⟩)]⟩ 3 rfl
    (by decide)).1

/-! ### Claim C5 -/

/-- Claim C5: when a fleet snapshot arrives while no vehicle is selected and
the fleet object is non-empty, the smallest identity present is selected
(`Object.keys` enumerates the canonical integer keys ascending, so the head of
the key-sorted fleet list is the minimum) and a `drone-selected` event
carrying it is dispatched; in every other case — a vehicle already selected
(sysIds are positive), an empty fleet, or a missing fleet object — the
selection is unchanged and no event is dispatched. -/
theorem c5_default_selects_smallest (s : OverlayState) (data : FleetData)
    (fl : List (Nat × DroneSummary)) :
    (s.selectedDroneId = none → data.fleet = some fl →
      List.Pairwise (fun a b => a.1 < b.1) fl → fl ≠ [] →
      ∃ k, (receiveFleetStatus s data).1.selectedDroneId = some k
        ∧ k ∈ fl.map Prod.fst
        ∧ (∀ j ∈ fl.map Prod.fst, k ≤ j)
        ∧ (receiveFleetStatus s data).2 = [UiEvent.droneSelected (some k)])
    ∧ (∀ d, s.selectedDroneId = some d → 0 < d →
        (receiveFleetStatus s data).1.selectedDroneId = some d
        ∧ (receiveFleetStatus s data).2 = [])
    ∧ (s.selectedDroneId = none → data.fleet = some [] →
        (receiveFleetStatus s data).1.selectedDroneId = none
        ∧ (receiveFleetStatus s data).2 = [])
    ∧ (s.selectedDroneId = none → data.fleet = none →
        (receiveFleetStatus s data).1.selectedDroneId = none
        ∧ (receiveFleetStatus s data).2 = []) := by
  refine ⟨?_, ?_, ?_, ?_⟩
  · intro hsel hfl hsort hne
    cases fl with
    | nil => exact absurd rfl hne
    | cons hd tl =>
      refine ⟨hd.1, ?_, ?_, ?_, ?_⟩
      · simp [receiveFleetStatus, hfl, hsel, jsFalsyId]
      · simp
      · intro j hj
        rcases List.mem_map.mp hj with ⟨b, hb, rfl⟩
        rcases List.mem_cons.mp hb with rfl | hbtl
        · exact Nat.le_refl _
        · exact Nat.le_of_lt ((List.pairwise_cons.mp hsort).1 b hbtl)
      · simp [receiveFleetStatus, hfl, hsel, jsFalsyId]
  · intro d hd hpos
    have hfalsy : jsFalsyId (some d) = false := by
      simp [jsFalsyId]
      omega
    cases hfl : data.fleet with
    | none => exact ⟨by simp [receiveFleetStatus, hfl, hd], by simp [receiveFleetStatus, hfl]⟩
    | some fl2 =>
      constructor
      · simp [receiveFleetStatus, hfl, hd, hfalsy]
      · simp [receiveFleetStatus, hfl, hd, hfalsy]
  · intro hsel hfl
    constructor
    · simp [receiveFleetStatus, hfl, hsel]
    · simp [receiveFleetStatus, hfl]
  · intro hsel hfl
    constructor
    · simp [receiveFleetStatus, hfl, hsel]
    · simp [receiveFleetStatus, hfl]

/-- Witness for `c5_default_selects_smallest` at a concrete input. -/
theorem c5_default_selects_smallest_witness :
    ∃ k, (receiveFleetStatus ⟨none, none⟩
        ⟨2, some [(1, ⟨3, 4, "GUIDED"⟩), (2, ⟨5, 6, "AUTO"⟩)]⟩).1.selectedDroneId
          = some k
      ∧ k ∈ ([(1, (⟨3, 4, "GUIDED"⟩ : DroneSummary)), (2, ⟨5, 6, "AUTO"⟩)]).map Prod.fst
      ∧ (∀ j ∈ ([(1, (⟨3, 4, "GUIDED"⟩ : DroneSummary)),
            (2, ⟨5, 6, "AUTO"⟩)]).map Prod.fst, k ≤ j)
      ∧ (receiveFleetStatus ⟨none, none⟩
          ⟨2, some [(1, ⟨3, 4, "GUIDED"⟩), (2, ⟨5, 6, "AUTO"⟩)]⟩).2
        = [UiEvent.droneSelected (some k)] :=
  (c5_default_selects_smallest ⟨none, none⟩
    ⟨2, some [(1, ⟨3, 4, "GUIDED"⟩), (2, ⟨5, 6, "AUTO"⟩)]⟩
    [(1, ⟨3, 4, "GUIDED"⟩), (2, ⟨5, 6, "AUTO"⟩)]).1 rfl rfl (by decide) (by decide)

/-! ### Claim C8 -/

/-- Claim C8, counterexample. The claim says the exclusion holds in both
directions — in particular that manual-mission actions are blocked while a
geofile is loaded. In the source, manual actions are gated only by the
planner-mode toggle: with a KML uploaded (`kmlUploaded = true`) but the
planner mode at `"MANUAL"`, a map click in add mode still appends a waypoint,
the unified Start button still submits the manual mission, and `canStart` is
true for the manual branch. -/
theorem c8_mutual_exclusion_counterexample :
    (panelLeftClick ⟨true, "MANUAL", true, []⟩ (some (10, 20)) "u1").waypoints
      = [⟨"u1", 10, 20, 5, "WAYPOINT"⟩]
    ∧ (⟨true, "MANUAL", true, []⟩ : PanelState).kmlUploaded = true
    ∧ unifiedStartSubmitsManual "MANUAL" = true
    ∧ canStart "MANUAL" 1 true = true := by
  decide

/-- Claim C8, amended: the exclusion is enforced in one direction by the
waypoint count and in the other by the planner-mode toggle. While at least one
manually placed waypoint exists, the KML actions (start KML mission, generate
coverage path) are no-ops (`isKmlBlocked`); while the planner mode is
`"KML"`, a map click leaves the panel state unchanged and the unified Start
button does not submit the manual mission. A loaded geofile by itself does not
block manual editing. -/
theorem c8_kml_blocked_manual_mode_gated (mwc : Nat) (upl gen : Bool)
    (s : PanelState) (pick : Option (Int × Int)) (fresh : String) :
    (0 < mwc →
      onStartKmlFires mwc upl = false ∧ onGeneratePathFires mwc upl gen = false)
    ∧ (s.plannerMode = "KML" →
        panelLeftClick s pick fresh = s
        ∧ unifiedStartSubmitsManual s.plannerMode = false) := by
  constructor
  · intro h
    have hb : isKmlBlocked mwc = true := by simp [isKmlBlocked, h]
    exact ⟨by simp [onStartKmlFires, hb], by simp [onGeneratePathFires, hb]⟩
  · intro h
    constructor
    · have hne : s.plannerMode ≠ "MANUAL" := by
        rw [h]
        decide
      unfold panelLeftClick leftClickFn
      rw [if_pos (Or.inr hne)]
    · rw [h]
      decide

/-- Witness for `c8_kml_blocked_manual_mode_gated` at a concrete input. -/
theorem c8_kml_blocked_manual_mode_gated_witness :
    (onStartKmlFires 2 true = false ∧ onGeneratePathFires 2 true false = false)
    ∧ (panelLeftClick ⟨true, "KML", true, []⟩ (some (10, 20)) "u1"
        = ⟨true, "KML", true, []⟩
       ∧ unifiedStartSubmitsManual "KML" = false) :=
  ⟨(c8_kml_blocked_manual_mode_gated 2 true false ⟨true, "KML", true, []⟩
      (some (10, 20)) "u1").1 (by decide),
   (c8_kml_blocked_manual_mode_gated 2 true false ⟨true, "KML", true, []⟩
      (some (10, 20)) "u1").2 rfl⟩

/-! ### Claim C9 -/

/-- Claim C9: when the manual mission submission fails (a non-empty waypoint
list was submitted and the response is not ok), the waypoint list is exactly
unchanged and the failure is surfaced as the status message holding the
backend-provided detail text (with a fixed fallback when the error body has no
detail). -/
theorem c9_failed_submission_preserves_state (wps : List Waypoint)
    (status0 : String) (resp : MissionResp) (hne : wps ≠ [])
    (hfail : resp.ok = false) :
    (handleStartMission wps status0 resp).2 = wps
    ∧ (handleStartMission wps status0 resp).1
        = resp.detail.getD "Failed to start manual mission"
    ∧ (∀ d, resp.detail = some d → (handleStartMission wps status0 resp).1 = d) := by
  have hlen : ¬ (wps.length = 0) := by
    cases wps with
    | nil => exact absurd rfl hne
    | cons w rest => simp
  have hcond : ¬ (resp.ok = true) := by
    rw [hfail]
    simp
  unfold handleStartMission
  rw [if_neg hlen, if_neg hcond]
  refine ⟨rfl, rfl, ?_⟩
  intro d hd
  rw [hd]
  rfl

/-- Witness for `c9_failed_submission_preserves_state` at a concrete input. -/
theorem c9_failed_submission_preserves_state_witness :
    (handleStartMission [⟨"a", 0, 0, 5, "WAYPOINT"⟩] ""
        ⟨false, some "Upload failed", false⟩).2 = [⟨"a", 0, 0, 5, "WAYPOINT"⟩]
    ∧ (handleStartMission [⟨"a", 0, 0, 5, "WAYPOINT"⟩] ""
        ⟨false, some "Upload failed", false⟩).1 = "Upload failed" :=
  ⟨(c9_failed_submission_preserves_state [⟨"a", 0, 0, 5, "WAYPOINT"⟩] ""
      ⟨false, some "Upload failed", false⟩ (by decide) rfl).1,
   (c9_failed_submission_preserves_state [⟨"a", 0, 0, 5, "WAYPOINT"⟩] ""
      ⟨false, some "Upload failed", false⟩ (by decide) rfl).2.2 "Upload failed" rfl⟩

end Aerothon
